import Mathlib

/-!
Verification development for the delivery-traffic-service repository.

Shallow embedding conventions:
* Python numeric values (floats and ints flowing through the handlers) are
  modelled as exact rationals `ℚ`; `int(x)` is truncation toward zero and
  `round(x, 2)` is round-half-to-even at two decimals.
* Python dicts mapped into fixed record shapes become structures; `d.get(k, v)`
  on an optional field becomes `Option.getD`.
* Exceptions become an explicit `PyErr` value threaded through `Except`;
  `try/except` blocks become matches on `Except` results.
* The upstream HTTP layer is an oracle function from the attempt number to the
  decoded payload or the exception the attempt raises.
-/

/-- The exception shapes that flow through app/routes/traffic.py and
app/services/here_client.py: a requests HTTPError carrying a response status,
a tenacity RetryError wrapping the last attempt, a fastapi HTTPException,
a pydantic validation failure, a database failure, and anything else. -/
inductive PyErr where
  | httpError (status : Nat)
  | retryError (last : PyErr)
  | httpException (status : Nat) (detail : String)
  | validationError
  | dbError
  | otherError
deriving DecidableEq

/-- Rendering of an exception into the message text interpolated by the
handlers; the exact text is irrelevant to every property proved here. -/
def pyStr : PyErr → String
  | .httpError s => "HTTPError status " ++ toString s
  | .retryError _ => "RetryError"
  | .httpException s _ => "HTTPException " ++ toString s
  | .validationError => "ValidationError"
  | .dbError => "DatabaseError"
  | .otherError => "Exception"

/-- Unwrapping a tenacity RetryError to the exception of its last attempt
(routes/traffic.py lines 169-171). -/
def unwrap_retry_error : PyErr → PyErr
  | .retryError last => last
  | e => e

/-- The check `isinstance(e, HTTPError) and e.response.status_code == 429`. -/
def is_http_429 : PyErr → Bool
  | .httpError s => s == 429
  | _ => false

namespace HereClient

/-- services/here_client.py `determine_congestion_level` (lines 278-293). -/
def determine_congestion_level (current_speed free_flow_speed : ℚ) : String :=
  if free_flow_speed = 0 then "UNKNOWN"
  else
    let speed_ratio := current_speed / free_flow_speed
    if 8/10 ≤ speed_ratio then "LOW"
    else if 6/10 ≤ speed_ratio then "MODERATE"
    else if 4/10 ≤ speed_ratio then "HIGH"
    else "SEVERE"

/-- services/here_client.py `_is_rate_limit_error` (lines 69-82): true for an
HTTPError with status 429, or a RetryError whose last attempt raised one. -/
def is_rate_limit_error (exc : PyErr) : Bool :=
  is_http_429 exc || is_http_429 (unwrap_retry_error exc)

end HereClient

namespace CacheManager

/-- Python tuple comparison on (name, value) pairs as used by
`sorted(kwargs.items())`: lexicographically by name, then by value. The
string order is stated on the character lists, which is exactly the
code-point lexicographic order `<` of `String`. -/
def pairLE (a b : String × String) : Prop :=
  a.1.data < b.1.data ∨ (a.1 = b.1 ∧ (a.2.data < b.2.data ∨ a.2 = b.2))

instance : DecidableRel pairLE := fun a b => by
  unfold pairLE; infer_instance

/-- The semantics of Python `":".join(parts)`. -/
def joinColon : List String → String
  | [] => ""
  | [s] => s
  | s :: t :: rest => s ++ ":" ++ joinColon (t :: rest)

/-- utils/cache_manager.py `generate_cache_key` (lines 137-143): the operation
name followed by each parameter rendered as name:value in sorted order,
joined with ":". Parameters are taken after the caller has rendered the
values to strings (the f-string rendering in the source). -/
def generate_cache_key (opName : String) (kwargs : List (String × String)) : String :=
  joinColon (opName :: (List.insertionSort pairLE kwargs).map (fun kv => kv.1 ++ ":" ++ kv.2))

/-- Character-level counterpart of `joinColon`. -/
def joinColonData : List (List Char) → List Char
  | [] => []
  | [s] => s
  | s :: t :: rest => s ++ ':' :: joinColonData (t :: rest)

/-- The flattened colon-free atoms of a parameter list: name then value for
each pair in order. -/
def pairsAtoms : List (String × String) → List (List Char)
  | [] => []
  | kv :: rest => kv.1.data :: kv.2.data :: pairsAtoms rest

end CacheManager

/-- Python `int(q)`: truncation toward zero. -/
def pyInt (q : ℚ) : ℤ := if 0 ≤ q then ⌊q⌋ else ⌈q⌉

/-- Python `round(q, 2)`: round half to even at two decimal places, on the
exact rational value. -/
def pyRound2 (q : ℚ) : ℚ :=
  let s := q * 100
  let f : ℤ := ⌊s⌋
  let r : ℤ :=
    if s - f < 1/2 then f
    else if 1/2 < s - f then f + 1
    else if f % 2 = 0 then f else f + 1
  (r : ℚ) / 100

/-- The `currentFlow` sub-dict of one result in the v7 flow payload
(fields read at here_client.py lines 168-171). -/
structure CurrentFlow where
  speed : Option ℚ
  speedUncapped : Option ℚ
  freeFlow : Option ℚ
  jamFactor : Option ℚ
  confidence : Option ℚ
deriving DecidableEq

/-- One entry of the `results` list in the v7 flow payload. -/
structure FlowResult where
  currentFlow : Option CurrentFlow
  linkId : Option String
deriving DecidableEq

/-- The decoded JSON body of a v7 flow response: `results` is absent or a
list of results. -/
structure FlowApiData where
  results : Option (List FlowResult)
deriving DecidableEq

/-- The dict returned by `_parse_traffic_flow_response`
(here_client.py lines 179-204). -/
structure ParsedFlow where
  road_segment_id : String
  current_speed_kmph : ℚ
  free_flow_speed_kmph : ℚ
  congestion_factor : ℚ
  congestion_level : String
  confidence_level : ℚ
  start_latitude : ℚ
  start_longitude : ℚ
  end_latitude : ℚ
  end_longitude : ℚ
deriving DecidableEq

/-- The keys of the dict returned by `_parse_traffic_flow_response`, in source
order (here_client.py lines 179-190; the zero-results branch at lines 193-204
produces the same keys). -/
def parsedFlowKeys : List String :=
  ["road_segment_id", "current_speed_kmph", "free_flow_speed_kmph",
   "congestion_factor", "congestion_level", "confidence_level",
   "start_latitude", "start_longitude", "end_latitude", "end_longitude"]

namespace HereClient

/-- here_client.py `_parse_traffic_flow_response` (lines 158-207): takes the
first result, defaults speed 50 (after speedUncapped), free-flow 60,
jamFactor 0, confidence 0.7; derives congestion factor and level; rounds the
numeric fields; on an absent or empty `results` list returns the fixed
fallback record. -/
def parse_traffic_flow_response (data : FlowApiData) (lat lng : ℚ) : ParsedFlow :=
  match data.results with
  | some (result :: _) =>
    let cf := result.currentFlow.getD ⟨none, none, none, none, none⟩
    let current_speed := cf.speed.getD (cf.speedUncapped.getD 50)
    let free_flow_speed := cf.freeFlow.getD 60
    let jam_factor := cf.jamFactor.getD 0
    let confidence := cf.confidence.getD (7/10)
    let congestion_factor := 1 + jam_factor / 10
    let congestion_level :=
      determine_congestion_level (pyInt current_speed : ℤ) (pyInt free_flow_speed : ℤ)
    { road_segment_id := result.linkId.getD ("unknown_" ++ toString lat ++ "_" ++ toString lng)
      current_speed_kmph := pyRound2 current_speed
      free_flow_speed_kmph := pyRound2 free_flow_speed
      congestion_factor := pyRound2 congestion_factor
      congestion_level := congestion_level
      confidence_level := pyRound2 confidence
      start_latitude := lat
      start_longitude := lng
      end_latitude := lat
      end_longitude := lng }
  | _ =>
    { road_segment_id := "default_" ++ toString lat ++ "_" ++ toString lng
      current_speed_kmph := 50
      free_flow_speed_kmph := 60
      congestion_factor := 1
      congestion_level := "LOW"
      confidence_level := 1/2
      start_latitude := lat
      start_longitude := lng
      end_latitude := lat
      end_longitude := lng }

/-- here_client.py `get_traffic_flow` (lines 21-40): one `requests.get` (no
retry decorator), `raise_for_status`, then parse. The oracle `op` maps the
attempt number to the decoded payload or the exception that attempt raises;
the second component counts upstream invocations issued. -/
def get_traffic_flow (op : Nat → Except PyErr FlowApiData) (lat lng : ℚ) :
    Except PyErr ParsedFlow × Nat :=
  match op 1 with
  | .error e => (.error e, 1)
  | .ok data => (.ok (parse_traffic_flow_response data lat lng), 1)

end HereClient

/-- tenacity `@retry(stop=stop_after_attempt(n))` around a body: run the body;
on an exception, retry while extra attempts remain; once the allowed attempts
are exhausted, raise RetryError wrapping the last exception (reraise is left
at its default False). Returns the result together with the number of body
invocations. `fuel` is the number of further attempts allowed after the
current one. -/
def tenacityRun (op : Nat → Except PyErr α) : Nat → Nat → Except PyErr α × Nat
  | attempt, fuel =>
    match op attempt with
    | .ok a => (.ok a, 1)
    | .error e =>
      match fuel with
      | 0 => (.error (.retryError e), 1)
      | f + 1 =>
        let r := tenacityRun op (attempt + 1) f
        (r.1, r.2 + 1)

/-- The `incidentDetails` sub-dict of one incident in the v7 incidents payload
(fields read at here_client.py lines 227-233). The nested
`description.value` string is modelled directly as the value. -/
structure IncidentDetails where
  id : Option String
  type : Option String
  criticality : Option String
  description : Option String
  impactOnTraffic : Option ℤ
deriving DecidableEq

/-- One entry of the `results` list in the v7 incidents payload:
`location.geometry.coordinates` is flattened to the coordinates list
(ordered lng, lat). -/
structure IncidentPayload where
  incidentDetails : Option IncidentDetails
  coordinates : List ℚ
deriving DecidableEq

/-- The decoded JSON body of a v7 incidents response. -/
structure IncidentsData where
  results : Option (List IncidentPayload)
deriving DecidableEq

/-- One record produced by `_parse_incidents_response`
(here_client.py lines 226-234). -/
structure Incident where
  here_incident_id : String
  incident_type : String
  severity : String
  description : String
  start_latitude : ℚ
  start_longitude : ℚ
  impact_on_traffic : ℤ
deriving DecidableEq

namespace HereClient

/-- here_client.py `_parse_incidents_response` (lines 209-238): one record per
result, with defaults for every absent field; lng is coordinate 0 and lat is
coordinate 1, each defaulting to 0 when the list is too short. -/
def parse_incidents_response (data : IncidentsData) : List Incident :=
  match data.results with
  | none => []
  | some rs => rs.map fun inc =>
    let d := inc.incidentDetails.getD ⟨none, none, none, none, none⟩
    { here_incident_id := d.id.getD ""
      incident_type := d.type.getD "UNKNOWN"
      severity := d.criticality.getD "LOW"
      description := d.description.getD ""
      start_latitude := inc.coordinates.getD 1 0
      start_longitude := inc.coordinates.getD 0 0
      impact_on_traffic := d.impactOnTraffic.getD 0 }

/-- here_client.py `get_traffic_incidents` (lines 42-67): one `requests.get`
(no retry decorator) wrapped in a try that catches only an HTTPError with
response status exactly 400 and degrades it to the empty list; every other
exception propagates. Second component counts upstream invocations. -/
def get_traffic_incidents (op : Nat → Except PyErr IncidentsData) :
    Except PyErr (List Incident) × Nat :=
  match op 1 with
  | .ok data => (.ok (parse_incidents_response data), 1)
  | .error (.httpError s) =>
    (if s = 400 then .ok [] else .error (.httpError s), 1)
  | .error e => (.error e, 1)

end HereClient

/-- One section of one leg in the v8 routing payload, with the summary fields
read at here_client.py lines 126-135. -/
structure RouteSection where
  length : Option ℤ
  duration : Option ℤ
  trafficDelay : Option ℤ
  polyline : Option String
deriving DecidableEq

/-- The decoded JSON body of one leg request: `routes` is a list, each route
being its list of sections. -/
structure RouteLegData where
  routes : List (List RouteSection)
deriving DecidableEq

/-- The sections the client reads from one leg payload
(here_client.py lines 123-125): those of the first route, or none. -/
def legSections (d : RouteLegData) : List RouteSection :=
  match d.routes with
  | [] => []
  | r :: _ => r

/-- The running totals accumulated across legs
(here_client.py lines 91-94). -/
structure RouteAcc where
  total_length_m : ℤ
  total_duration_s : ℤ
  total_traffic_delay_s : ℤ
  all_polylines : List String
deriving DecidableEq

/-- The aggregated route dict returned by the client
(here_client.py lines 148-156). -/
structure RouteData where
  total_distance_km : ℚ
  total_time_minutes : ℤ
  traffic_delay_minutes : ℤ
  polyline : String
  sections : List String
deriving DecidableEq

/-- The per-section accumulation inside one leg
(here_client.py lines 126-135): add the summary numbers and collect the
non-empty polyline. -/
def sectionFold (acc : RouteAcc) (secs : List RouteSection) : RouteAcc :=
  secs.foldl (fun a sec =>
    { total_length_m := a.total_length_m + sec.length.getD 0
      total_duration_s := a.total_duration_s + sec.duration.getD 0
      total_traffic_delay_s := a.total_traffic_delay_s + sec.trafficDelay.getD 0
      all_polylines :=
        a.all_polylines ++ (if sec.polyline.getD "" ≠ "" then [sec.polyline.getD ""] else []) })
    acc

/-- The sequential leg loop (here_client.py lines 98-143): legs are fetched in
order starting at index `i`; the first leg exception aborts the whole loop. -/
def routeLegsLoop (fetch : Nat → Except PyErr RouteLegData) :
    Nat → Nat → RouteAcc → Except PyErr RouteAcc
  | _, 0, acc => .ok acc
  | i, c + 1, acc =>
    match fetch i with
    | .error e => .error e
    | .ok d => routeLegsLoop fetch (i + 1) c (sectionFold acc (legSections d))

/-- One whole invocation of the `get_route_with_traffic` body: fetch all
`nWaypoints - 1` legs, then assemble the aggregate dict
(here_client.py lines 86-156). -/
def routeAttemptBody (fetch : Nat → Except PyErr RouteLegData) (nWaypoints : Nat) :
    Except PyErr RouteData :=
  (routeLegsLoop fetch 0 (nWaypoints - 1) ⟨0, 0, 0, []⟩).map fun acc =>
    { total_distance_km := (acc.total_length_m : ℚ) / 1000
      total_time_minutes := Int.fdiv acc.total_duration_s 60
      traffic_delay_minutes := Int.fdiv acc.total_traffic_delay_s 60
      polyline := ""
      sections := acc.all_polylines }

namespace HereClient

/-- here_client.py `get_route_with_traffic` (lines 85-156): the whole
multi-leg body is wrapped in `@retry(stop=stop_after_attempt(3), ...)`.
`fetch a i` is the payload or exception of the request for leg `i` during
body invocation `a`. Second component counts body invocations. -/
def get_route_with_traffic (fetch : Nat → Nat → Except PyErr RouteLegData)
    (nWaypoints : Nat) : Except PyErr RouteData × Nat :=
  tenacityRun (fun a => routeAttemptBody (fetch a) nWaypoints) 1 2

end HereClient

/-- The required (no default, non-Optional) fields of the pydantic model
`TrafficFlowResponse` (schemas/traffic.py lines 14-28), in source order. -/
def TrafficFlowResponse.required : List String :=
  ["road_segment_id", "start_latitude", "start_longitude",
   "end_latitude", "end_longitude", "current_speed_kmph",
   "free_flow_speed_kmph", "confidence_level", "congestion_level",
   "congestion_factor"]

/-- The required fields of the pydantic model `RouteTrafficResponse`
(schemas/traffic.py lines 55-57). -/
def RouteTrafficResponse.required : List String :=
  ["route", "segments"]

/-- The required fields of `required` that the keyword arguments `given` do
not supply: exactly the fields pydantic reports as missing. -/
def pydanticMissing (required given : List String) : List String :=
  required.filter (fun f => !(given.contains f))

/-- Pydantic model construction from keyword arguments with key set `given`:
extra keys are ignored (the v2 default) and any missing required field
raises a ValidationError. -/
def pydanticCheck (required given : List String) : Except PyErr Unit :=
  if pydanticMissing required given = [] then .ok () else .error .validationError

/-- The keys of the `cache_data` dict the flow handler builds both on a
database-cache hit (routes/traffic.py lines 57-68) and after a cold fetch
(lines 132-143); the two dicts have identical key sets. -/
def cacheDataKeys : List String :=
  ["cache_id", "road_segment_id", "start_latitude", "start_longitude",
   "current_speed_kmph", "free_flow_speed_kmph", "confidence_level",
   "congestion_level", "cached_at", "expires_at"]

/-- What the flow endpoint hands back to the caller: a validated pydantic
response, identified by the key set of the dict it was built from, or an
HTTPException status and detail. -/
inductive FlowHandlerResult where
  | response (fields : List String)
  | httpError (status : Nat) (detail : String)
deriving DecidableEq

/-- routes/traffic.py lines 165-176: the handler unwraps a RetryError and, for
an underlying HTTPError 429, raises HTTPException(429). That raise sits
inside the same `try` whose handler is `except Exception: pass`, and fastapi
HTTPException is an Exception, so the raise is swallowed and the block always
falls through without an escaping exception. -/
def flow_rate_limit_block (e : PyErr) : Except PyErr Unit :=
  let body : Except PyErr Unit :=
    if is_http_429 (unwrap_retry_error e) then
      .error (.httpException 429 "Rate limit reached for HERE API. Please retry after some time.")
    else .ok ()
  match body with
  | .error _ => .ok ()
  | .ok () => .ok ()

/-- routes/traffic.py lines 149-178: the exception the inner `except Exception`
handler ends up raising for an upstream failure `e`. -/
def flow_inner_except (e : PyErr) : PyErr :=
  match flow_rate_limit_block e with
  | .error ex => ex
  | .ok () => .httpException 500 ("Failed to fetch traffic data: " ++ pyStr e)

/-- routes/traffic.py lines 179-181: the outer `except Exception` catches
every exception raised inside the handler body, HTTPException included, and
replaces it with HTTPException(500, "Internal server error"). -/
def flow_outer_except (_e : PyErr) : FlowHandlerResult :=
  .httpError 500 "Internal server error"

/-- The full exception chain for a failure of the upstream fetch inside the
flow handler: inner handler (lines 149-178), then outer handler
(lines 179-181). -/
def flow_handle_upstream_error (e : PyErr) : FlowHandlerResult :=
  flow_outer_except (flow_inner_except e)

/-- `TrafficFlowResponse(**d)` for a dict with key set `keys`, on the two
cache-hit paths (routes/traffic.py lines 43 and 70): a ValidationError there
propagates directly to the outer `except Exception` and becomes a 500. -/
def constructFlowResponse (keys : List String) : FlowHandlerResult :=
  match pydanticCheck TrafficFlowResponse.required keys with
  | .ok () => .response keys
  | .error e => flow_outer_except e

/-- The row the flow handler stores in TrafficCache is built from the parsed
record plus the congestion level the handler recomputes
(routes/traffic.py lines 102-114). -/
structure TrafficCacheRow where
  road_segment_id : String
  start_latitude : ℚ
  start_longitude : ℚ
  end_latitude : ℚ
  end_longitude : ℚ
  current_speed_kmph : ℚ
  free_flow_speed_kmph : ℚ
  confidence_level : ℚ
  congestion_level : String
deriving DecidableEq

/-- routes/traffic.py line 84: the handler iterates
`here_data.get("results", [])`, but `here_data` is the dict returned by
`HereClient.get_traffic_flow`, which is the output of
`_parse_traffic_flow_response` and has exactly the keys `parsedFlowKeys` —
"results" is not among them, so the default empty list is always taken. -/
def flow_handler_sub_results (_here_data : ParsedFlow) : List FlowResult := []

/-- routes/traffic.py lines 81-91: collect truthy (present and non-zero)
speed, free-flow and confidence values from the sub-results and take their
arithmetic means, defaulting each mean to 0 when its list is empty. -/
def flow_cold_congestion_inputs (here_data : ParsedFlow) : ℚ × ℚ × ℚ :=
  let results := flow_handler_sub_results here_data
  let speed := results.filterMap fun l =>
    ((l.currentFlow.getD ⟨none, none, none, none, none⟩).speed).bind
      (fun s => if s = 0 then none else some s)
  let free_flow := results.filterMap fun l =>
    ((l.currentFlow.getD ⟨none, none, none, none, none⟩).freeFlow).bind
      (fun s => if s = 0 then none else some s)
  let confidence := results.filterMap fun l =>
    ((l.currentFlow.getD ⟨none, none, none, none, none⟩).confidence).bind
      (fun s => if s = 0 then none else some s)
  (if speed ≠ [] then speed.sum / speed.length else 0,
   if free_flow ≠ [] then free_flow.sum / free_flow.length else 0,
   if confidence ≠ [] then confidence.sum / confidence.length else 0)

/-- routes/traffic.py lines 76-114: the TrafficCache row written after a cold
fetch whose decoded payload is `raw`. The congestion level stored is the
classifier applied to the means computed by `flow_cold_congestion_inputs`. -/
def mkTrafficCacheRow (raw : FlowApiData) (lat lng : ℚ) : TrafficCacheRow :=
  let here_data := HereClient.parse_traffic_flow_response raw lat lng
  let means := flow_cold_congestion_inputs here_data
  let congestion_level := HereClient.determine_congestion_level means.1 means.2.1
  { road_segment_id := here_data.road_segment_id
    start_latitude := here_data.start_latitude
    start_longitude := here_data.start_longitude
    end_latitude := here_data.end_latitude
    end_longitude := here_data.end_longitude
    current_speed_kmph := here_data.current_speed_kmph
    free_flow_speed_kmph := here_data.free_flow_speed_kmph
    confidence_level := here_data.confidence_level
    congestion_level := congestion_level }

/-- routes/traffic.py lines 98-147 continued by the except chains: after a
successful upstream fetch, the handler writes the TrafficCache row (a failed
commit raises a database error into the inner except chain), then builds
`cache_data` (key set `cacheDataKeys`) and returns
`TrafficFlowResponse(**cache_data)`; the ValidationError that construction
raises goes through the inner, then the outer except handler. -/
def flow_cold_after_fetch (raw : FlowApiData) (lat lng : ℚ) (dbCommitOk : Bool) :
    FlowHandlerResult :=
  let _row := mkTrafficCacheRow raw lat lng
  if dbCommitOk then
    match pydanticCheck TrafficFlowResponse.required cacheDataKeys with
    | .ok () => .response cacheDataKeys
    | .error e => flow_outer_except (flow_inner_except e)
  else flow_outer_except (flow_inner_except .dbError)

/-- GET /traffic/flow (routes/traffic.py lines 23-181) without force-refresh:
check the fast cache (the stored dict has key set `fastEntry` when present),
then the unexpired database row, then fall to the cold fetch. The second
component counts upstream invocations issued by this request. -/
def flow_request (fastEntry : Option (List String)) (dbEntry : Option TrafficCacheRow)
    (op : Nat → Except PyErr FlowApiData) (lat lng : ℚ) (dbCommitOk : Bool) :
    FlowHandlerResult × Nat :=
  match fastEntry with
  | some keys => (constructFlowResponse keys, 0)
  | none =>
    match dbEntry with
    | some _ => (constructFlowResponse cacheDataKeys, 0)
    | none =>
      match op 1 with
      | .error e => (flow_handle_upstream_error e, (HereClient.get_traffic_flow op lat lng).2)
      | .ok raw => (flow_cold_after_fetch raw lat lng dbCommitOk, (HereClient.get_traffic_flow op lat lng).2)

/-- The keyword arguments passed to `RouteTrafficResponse(...)` by the route
handler (routes/traffic.py lines 229-240), in source order. -/
def routeCtorKeys : List String :=
  ["total_distance_km", "total_time_minutes", "traffic_delay_minutes",
   "congestion_summary", "route_segments"]

/-- What POST /traffic/route hands back to the caller. -/
inductive RouteHandlerResult where
  | response (fields : List String)
  | httpError (status : Nat) (detail : String)
deriving DecidableEq

/-- One iteration of the per-segment loop (routes/traffic.py lines 206-227):
fetch the traffic flow for the segment start (single attempt, no retry),
recompute the congestion level from the parsed record speeds, build
`TrafficFlowResponse(**segment_traffic)` (the parsed record supplies exactly
`parsedFlowKeys`), and compute the extra delay for HIGH and SEVERE levels
(`int(10 * (1.5 - 1)) = 5` and `int(10 * (2.0 - 1)) = 10`). -/
def flow_segment_step (up : Except PyErr FlowApiData) (lat lng : ℚ) :
    Except PyErr (ParsedFlow × ℤ) :=
  match up with
  | .error e => .error e
  | .ok raw =>
    let segment_traffic := HereClient.parse_traffic_flow_response raw lat lng
    let congestion_level := HereClient.determine_congestion_level
      segment_traffic.current_speed_kmph segment_traffic.free_flow_speed_kmph
    let seg := { segment_traffic with congestion_level := congestion_level }
    match pydanticCheck TrafficFlowResponse.required parsedFlowKeys with
    | .error e => .error e
    | .ok () =>
      let segment_delay : ℤ :=
        if congestion_level = "HIGH" then 5
        else if congestion_level = "SEVERE" then 10
        else 0
      .ok (seg, segment_delay)

/-- The per-segment loop over waypoints `i, i+1, ...` with `c` iterations
left, accumulating the segment records and the total delay. -/
def route_segments_loop (segUp : Nat → Except PyErr FlowApiData)
    (wp : Nat → ℚ × ℚ) :
    Nat → Nat → List ParsedFlow → ℤ → Except PyErr (List ParsedFlow × ℤ)
  | _, 0, segs, delay => .ok (segs, delay)
  | i, c + 1, segs, delay =>
    match flow_segment_step (segUp i) (wp i).1 (wp i).2 with
    | .error e => .error e
    | .ok (seg, d) => route_segments_loop segUp wp (i + 1) c (segs ++ [seg]) (delay + d)

/-- POST /traffic/route (routes/traffic.py lines 184-246): fewer than 2
waypoints is rejected with 400 before any upstream call; otherwise the route
client (with its retry wrapper) runs, then the per-segment flow fetches, then
`RouteTrafficResponse(...)` is constructed from `routeCtorKeys`; any exception
in the body is caught by the single `except Exception` and surfaced as
HTTPException(500, "Failed to get route data: ..."). -/
def get_route_with_traffic_handler (nWaypoints : Nat)
    (fetch : Nat → Nat → Except PyErr RouteLegData)
    (segUp : Nat → Except PyErr FlowApiData) (wp : Nat → ℚ × ℚ) :
    RouteHandlerResult :=
  if nWaypoints < 2 then .httpError 400 "At least 2 waypoints required"
  else
    match (HereClient.get_route_with_traffic fetch nWaypoints).1 with
    | .error e => .httpError 500 ("Failed to get route data: " ++ pyStr e)
    | .ok _route_data =>
      match route_segments_loop segUp wp 0 (nWaypoints - 1) [] 0 with
      | .error e => .httpError 500 ("Failed to get route data: " ++ pyStr e)
      | .ok _ =>
        match pydanticCheck RouteTrafficResponse.required routeCtorKeys with
        | .ok () => .response routeCtorKeys
        | .error e => .httpError 500 ("Failed to get route data: " ++ pyStr e)

/-- A flow payload with two sub-results, each carrying speed, free-flow and
confidence values: speeds 30 and 50, free-flows 60 and 100, confidences 0.9
and 0.7. Arithmetic means: speed 40, free-flow 80, confidence 0.8. -/
def twoResultFlowPayload : FlowApiData :=
  ⟨some [⟨some ⟨some 30, none, some 60, none, some (9/10)⟩, some "segA"⟩,
         ⟨some ⟨some 50, none, some 100, none, some (7/10)⟩, some "segB"⟩]⟩

/-- A simulated flow upstream that fails with a 500 response on attempts 1
and 2 and succeeds from attempt 3 on. -/
def failTwiceFlowOp : Nat → Except PyErr FlowApiData :=
  fun a => if 3 ≤ a then .ok twoResultFlowPayload else .error (.httpError 500)

/-- A simulated upstream body that fails with a 503 response on every
attempt. -/
def alwaysFail503Op : Nat → Except PyErr Nat :=
  fun _ => .error (.httpError 503)

/-- A simulated upstream body that fails with a 500 response on attempts 1
and 2 and succeeds from attempt 3 on. -/
def failTwiceNatOp : Nat → Except PyErr Nat :=
  fun a => if 3 ≤ a then .ok 7 else .error (.httpError 500)

/-- A 3-waypoint route leg oracle whose second leg (index 1) fails with a 500
response on every attempt, while leg 0 succeeds with an empty payload. -/
def leg1FailsFetch : Nat → Nat → Except PyErr RouteLegData :=
  fun _ i => if i = 1 then .error (.httpError 500) else .ok ⟨[]⟩

namespace CacheManager

theorem colon_data : (":" : String).data = [':'] := by decide

theorem joinColon_data : ∀ l : List String,
    (joinColon l).data = joinColonData (l.map String.data)
  | [] => rfl
  | [_] => rfl
  | s :: t :: rest => by
    show (s ++ ":" ++ joinColon (t :: rest)).data = _
    rw [String.data_append, String.data_append, joinColon_data (t :: rest), colon_data]
    simp [joinColonData, List.append_assoc]

/-- Splitting at the first colon is unambiguous when the part before it is
colon-free. -/
theorem colon_split : ∀ (a c X Y : List Char), ':' ∉ a → ':' ∉ c →
    a ++ ':' :: X = c ++ ':' :: Y → a = c ∧ X = Y := by
  intro a
  induction a with
  | nil =>
    intro c X Y _ hc h
    cases c with
    | nil => simpa using h
    | cons ch c2 =>
      simp only [List.nil_append, List.cons_append, List.cons.injEq] at h
      exfalso
      apply hc
      rw [h.1]
      exact List.mem_cons_self ch c2
  | cons ha a2 ih =>
    intro c X Y hha hc h
    cases c with
    | nil =>
      simp only [List.cons_append, List.nil_append, List.cons.injEq] at h
      exfalso
      apply hha
      rw [← h.1]
      exact List.mem_cons_self ha a2
    | cons hch c2 =>
      simp only [List.cons_append, List.cons.injEq] at h
      have := ih c2 X Y (fun m => hha (List.mem_cons_of_mem _ m))
        (fun m => hc (List.mem_cons_of_mem _ m)) h.2
      exact ⟨by rw [h.1, this.1], this.2⟩

/-- `joinColonData` is injective on nonempty lists of colon-free parts. -/
theorem joinColonData_inj : ∀ (l1 l2 : List (List Char)),
    l1 ≠ [] → l2 ≠ [] → (∀ x ∈ l1, ':' ∉ x) → (∀ x ∈ l2, ':' ∉ x) →
    joinColonData l1 = joinColonData l2 → l1 = l2 := by
  intro l1
  induction l1 with
  | nil => intro l2 h1 _ _ _ _; exact absurd rfl h1
  | cons a t ih =>
    intro l2 _ h2 hl1 hl2 h
    cases t with
    | nil =>
      cases l2 with
      | nil => exact absurd rfl h2
      | cons c s =>
        cases s with
        | nil =>
          show [a] = [c]
          simpa [joinColonData] using h
        | cons d s2 =>
          exfalso
          have hcol : ':' ∈ joinColonData (c :: d :: s2) := by
            show ':' ∈ c ++ ':' :: joinColonData (d :: s2)
            exact List.mem_append_right _ (List.mem_cons_self _ _)
          have : ':' ∈ a := by
            have ha : joinColonData [a] = a := rfl
            rw [← h] at hcol
            simpa [ha] using hcol
          exact hl1 a (List.mem_cons_self _ _) this
    | cons b r =>
      cases l2 with
      | nil => exact absurd rfl h2
      | cons c s =>
        cases s with
        | nil =>
          exfalso
          have hcol : ':' ∈ joinColonData (a :: b :: r) := by
            show ':' ∈ a ++ ':' :: joinColonData (b :: r)
            exact List.mem_append_right _ (List.mem_cons_self _ _)
          have : ':' ∈ c := by
            have hc : joinColonData [c] = c := rfl
            rw [h] at hcol
            simpa [hc] using hcol
          exact hl2 c (List.mem_cons_self _ _) this
        | cons d s2 =>
          have h0 : a ++ ':' :: joinColonData (b :: r) = c ++ ':' :: joinColonData (d :: s2) := h
          have hs := colon_split a c _ _
            (hl1 a (List.mem_cons_self _ _)) (hl2 c (List.mem_cons_self _ _)) h0
          have htail := ih (d :: s2) (by simp) (by simp)
            (fun x m => hl1 x (List.mem_cons_of_mem _ m))
            (fun x m => hl2 x (List.mem_cons_of_mem _ m)) hs.2
          rw [hs.1, htail]

/-- Pulling a rendered name:value part apart inside the join. -/
theorem joinColonData_glue (n v : List Char) (L : List (List Char)) :
    joinColonData ((n ++ ':' :: v) :: L) = n ++ ':' :: joinColonData (v :: L) := by
  cases L with
  | nil => rfl
  | cons x xs =>
    show (n ++ ':' :: v) ++ ':' :: joinColonData (x :: xs)
      = n ++ ':' :: (v ++ ':' :: joinColonData (x :: xs))
    simp

theorem joinColonData_pairs : ∀ (p : List Char) (l : List (String × String)),
    joinColonData (p :: l.map (fun kv => (kv.1 ++ ":" ++ kv.2).data))
      = joinColonData (p :: pairsAtoms l) := by
  intro p l
  induction l generalizing p with
  | nil => rfl
  | cons kv rest ih =>
    have hdata : (kv.1 ++ ":" ++ kv.2).data = kv.1.data ++ ':' :: kv.2.data := by
      rw [String.data_append, String.data_append, colon_data]
      simp
    show joinColonData (p :: (kv.1 ++ ":" ++ kv.2).data
        :: rest.map (fun kv => (kv.1 ++ ":" ++ kv.2).data))
      = joinColonData (p :: kv.1.data :: kv.2.data :: pairsAtoms rest)
    rw [show joinColonData (p :: (kv.1 ++ ":" ++ kv.2).data
          :: rest.map (fun kv => (kv.1 ++ ":" ++ kv.2).data))
        = p ++ ':' :: joinColonData ((kv.1 ++ ":" ++ kv.2).data
          :: rest.map (fun kv => (kv.1 ++ ":" ++ kv.2).data)) from rfl]
    rw [hdata, joinColonData_glue, ih kv.2.data]
    rfl

theorem string_data_inj {s t : String} (h : s.data = t.data) : s = t := by
  cases s; cases t; exact congrArg String.mk h

theorem pairsAtoms_inj : ∀ (l1 l2 : List (String × String)),
    pairsAtoms l1 = pairsAtoms l2 → l1 = l2 := by
  intro l1
  induction l1 with
  | nil =>
    intro l2 h
    cases l2 with
    | nil => rfl
    | cons kv r => simp [pairsAtoms] at h
  | cons kv r ih =>
    intro l2 h
    cases l2 with
    | nil => simp [pairsAtoms] at h
    | cons kv2 r2 =>
      simp only [pairsAtoms, List.cons.injEq] at h
      have h1 := string_data_inj h.1
      have h2 := string_data_inj h.2.1
      rw [ih r2 h.2.2, Prod.ext_iff.mpr ⟨h1, h2⟩]

theorem pairsAtoms_colon_free {l : List (String × String)}
    (hl : ∀ kv ∈ l, ':' ∉ kv.1.data ∧ ':' ∉ kv.2.data) :
    ∀ x ∈ pairsAtoms l, ':' ∉ x := by
  induction l with
  | nil => intro x m; simp [pairsAtoms] at m
  | cons kv r ih =>
    intro x m
    simp only [pairsAtoms, List.mem_cons] at m
    rcases m with h | h | h
    · exact h ▸ (hl kv (List.mem_cons_self _ _)).1
    · exact h ▸ (hl kv (List.mem_cons_self _ _)).2
    · exact ih (fun p mp => hl p (List.mem_cons_of_mem _ mp)) x h

theorem generate_cache_key_atoms (p : String) (kw : List (String × String)) :
    (generate_cache_key p kw).data
      = joinColonData (p.data :: pairsAtoms (List.insertionSort pairLE kw)) := by
  show (joinColon (p :: (List.insertionSort pairLE kw).map (fun kv => kv.1 ++ ":" ++ kv.2))).data = _
  rw [joinColon_data]
  simp only [List.map_cons, List.map_map]
  exact joinColonData_pairs p.data (List.insertionSort pairLE kw)

/-- C10 amended: the key builder is injective on inputs whose operation name
and rendered parameter names and values contain no occurrence of the ":"
separator — for such inputs, equal keys imply equal operation names and
parameter lists that are permutations of each other (equal name-by-name and
value-by-value as maps). Without the colon restriction, distinct parameter
sets can collide (see the counterexample). -/
theorem generate_cache_key_inj (p p2 : String) (kw kw2 : List (String × String))
    (hp : ':' ∉ p.data) (hp2 : ':' ∉ p2.data)
    (hkw : ∀ kv ∈ kw, ':' ∉ (kv : String × String).1.data ∧ ':' ∉ kv.2.data)
    (hkw2 : ∀ kv ∈ kw2, ':' ∉ (kv : String × String).1.data ∧ ':' ∉ kv.2.data)
    (heq : generate_cache_key p kw = generate_cache_key p2 kw2) :
    p = p2 ∧ kw.Perm kw2 := by
  have hperm := List.perm_insertionSort pairLE kw
  have hperm2 := List.perm_insertionSort pairLE kw2
  have hd := congrArg String.data heq
  rw [generate_cache_key_atoms, generate_cache_key_atoms] at hd
  have hs : ∀ kv ∈ List.insertionSort pairLE kw, ':' ∉ (kv : String × String).1.data ∧ ':' ∉ kv.2.data :=
    fun kv m => hkw kv (hperm.mem_iff.mp m)
  have hs2 : ∀ kv ∈ List.insertionSort pairLE kw2, ':' ∉ (kv : String × String).1.data ∧ ':' ∉ kv.2.data :=
    fun kv m => hkw2 kv (hperm2.mem_iff.mp m)
  have hlists := joinColonData_inj _ _ (by simp) (by simp)
    (by
      intro x m
      rcases List.mem_cons.mp m with h | h
      · exact h ▸ hp
      · exact pairsAtoms_colon_free hs x h)
    (by
      intro x m
      rcases List.mem_cons.mp m with h | h
      · exact h ▸ hp2
      · exact pairsAtoms_colon_free hs2 x h)
    hd
  have hhead : p = p2 := string_data_inj (List.head_eq_of_cons_eq hlists)
  have htail := pairsAtoms_inj _ _ (List.tail_eq_of_cons_eq hlists)
  exact ⟨hhead, hperm.symm.trans (htail ▸ hperm2)⟩

end CacheManager

theorem routeLegsLoop_all_ok (g : Nat → RouteLegData) :
    ∀ (c i : Nat) (acc : RouteAcc),
    ∃ acc2, routeLegsLoop (fun j => .ok (g j)) i c acc = .ok acc2 := by
  intro c
  induction c with
  | zero => intro i acc; exact ⟨acc, rfl⟩
  | succ c ih =>
    intro i acc
    exact ih (i + 1) (sectionFold acc (legSections (g i)))

theorem routeLegsLoop_leg_error (fetch : Nat → Except PyErr RouteLegData) :
    ∀ (c k i : Nat) (acc : RouteAcc), k < c → (∃ e, fetch (i + k) = .error e) →
    ∃ e2, routeLegsLoop fetch i c acc = .error e2 := by
  intro c
  induction c with
  | zero => intro k i acc hk; omega
  | succ c ih =>
    intro k i acc hk hke
    cases hfi : fetch i with
    | error e => exact ⟨e, by simp [routeLegsLoop, hfi]⟩
    | ok d =>
      rcases k with _ | k2
      · rcases hke with ⟨e, he⟩
        rw [Nat.add_zero, hfi] at he
        cases he
      · have hke2 : ∃ e, fetch ((i + 1) + k2) = .error e := by
          rcases hke with ⟨e, he⟩
          exact ⟨e, by rw [show i + 1 + k2 = i + (k2 + 1) by omega]; exact he⟩
        rcases ih k2 (i + 1) (sectionFold acc (legSections d)) (by omega) hke2 with ⟨e2, he2⟩
        exact ⟨e2, by simp [routeLegsLoop, hfi, he2]⟩

theorem tenacityRun_step (op : Nat → Except PyErr α) (a0 fuel : Nat) :
    tenacityRun op a0 fuel =
      match op a0 with
      | .ok a => (.ok a, 1)
      | .error e =>
        match fuel with
        | 0 => (.error (.retryError e), 1)
        | f + 1 => ((tenacityRun op (a0 + 1) f).1, (tenacityRun op (a0 + 1) f).2 + 1) := by
  rw [tenacityRun]

theorem tenacityRun_all_fail (op : Nat → Except PyErr α)
    (h : ∀ a, ∃ e, op a = .error e) :
    ∀ (fuel a0 : Nat), ∃ e, (tenacityRun op a0 fuel).1 = .error (.retryError e) := by
  intro fuel
  induction fuel with
  | zero =>
    intro a0
    rcases h a0 with ⟨e, he⟩
    exact ⟨e, by rw [tenacityRun_step, he]⟩
  | succ f ih =>
    intro a0
    rcases h a0 with ⟨e, he⟩
    rcases ih (a0 + 1) with ⟨e2, he2⟩
    exact ⟨e2, by rw [tenacityRun_step, he]; exact he2⟩

theorem tenacityRun_succeeds_3rd (op : Nat → Except PyErr α) (e1 e2 : PyErr) (v : α)
    (h1 : op 1 = .error e1) (h2 : op 2 = .error e2) (h3 : op 3 = .ok v) :
    tenacityRun op 1 2 = (.ok v, 3) := by
  have ht3 : tenacityRun op 3 0 = (.ok v, 1) := by
    rw [tenacityRun_step, h3]
  have ht2 : tenacityRun op 2 1 = (.ok v, 2) := by
    rw [tenacityRun_step, h2]
    show ((tenacityRun op 3 0).1, (tenacityRun op 3 0).2 + 1) = (.ok v, 2)
    rw [ht3]
  rw [tenacityRun_step, h1]
  show ((tenacityRun op 2 1).1, (tenacityRun op 2 1).2 + 1) = (.ok v, 3)
  rw [ht2]

theorem tenacityRun_exhausts (op : Nat → Except PyErr α) (e : PyErr)
    (h : ∀ a, op a = .error e) :
    tenacityRun op 1 2 = (.error (.retryError e), 3) := by
  have ht3 : tenacityRun op 3 0 = (.error (.retryError e), 1) := by
    rw [tenacityRun_step, h 3]
  have ht2 : tenacityRun op 2 1 = (.error (.retryError e), 2) := by
    rw [tenacityRun_step, h 2]
    show ((tenacityRun op 3 0).1, (tenacityRun op 3 0).2 + 1) = (.error (.retryError e), 2)
    rw [ht3]
  rw [tenacityRun_step, h 1]
  show ((tenacityRun op 2 1).1, (tenacityRun op 2 1).2 + 1) = (.error (.retryError e), 3)
  rw [ht2]

theorem pydanticCheck_parsed_ok :
    pydanticCheck TrafficFlowResponse.required parsedFlowKeys = .ok () := rfl

theorem flow_segment_step_ok (raw : FlowApiData) (lat lng : ℚ) :
    ∃ sd, flow_segment_step (.ok raw) lat lng = .ok sd :=
  ⟨_, rfl⟩

theorem route_segments_loop_all_ok (g : Nat → FlowApiData) (wp : Nat → ℚ × ℚ) :
    ∀ (c i : Nat) (segs : List ParsedFlow) (delay : ℤ),
    ∃ r, route_segments_loop (fun j => .ok (g j)) wp i c segs delay = .ok r := by
  intro c
  induction c with
  | zero => intro i segs delay; exact ⟨(segs, delay), rfl⟩
  | succ c ih =>
    intro i segs delay
    rcases flow_segment_step_ok (g i) (wp i).1 (wp i).2 with ⟨sd, hsd⟩
    rcases ih (i + 1) (segs ++ [sd.1]) (delay + sd.2) with ⟨r, hr⟩
    exact ⟨r, by simp [route_segments_loop, hsd, hr]⟩

/-- C8: for every non-negative pair of speeds, `determine_congestion_level`
returns UNKNOWN exactly when the free-flow speed is 0, and otherwise
classifies the speed ratio into LOW (ratio at least 0.8), MODERATE (0.6 to
below 0.8), HIGH (0.4 to below 0.6) and SEVERE (below 0.4), with each band
closed at its lower bound; in particular the six boundary evaluations of the
claim hold. -/
theorem determine_congestion_level_spec (c f : ℚ) (_hc : 0 ≤ c) (_hf : 0 ≤ f) :
    (f = 0 → HereClient.determine_congestion_level c f = "UNKNOWN") ∧
    (f ≠ 0 →
      ((8/10 ≤ c / f → HereClient.determine_congestion_level c f = "LOW") ∧
       (6/10 ≤ c / f ∧ c / f < 8/10 →
         HereClient.determine_congestion_level c f = "MODERATE") ∧
       (4/10 ≤ c / f ∧ c / f < 6/10 →
         HereClient.determine_congestion_level c f = "HIGH") ∧
       (c / f < 4/10 → HereClient.determine_congestion_level c f = "SEVERE"))) ∧
    HereClient.determine_congestion_level 80 100 = "LOW" ∧
    HereClient.determine_congestion_level 79 100 = "MODERATE" ∧
    HereClient.determine_congestion_level 60 100 = "MODERATE" ∧
    HereClient.determine_congestion_level 59 100 = "HIGH" ∧
    HereClient.determine_congestion_level 40 100 = "HIGH" ∧
    HereClient.determine_congestion_level 39 100 = "SEVERE" := by
  refine ⟨?_, ?_,
    by norm_num [HereClient.determine_congestion_level],
    by norm_num [HereClient.determine_congestion_level],
    by norm_num [HereClient.determine_congestion_level],
    by norm_num [HereClient.determine_congestion_level],
    by norm_num [HereClient.determine_congestion_level],
    by norm_num [HereClient.determine_congestion_level]⟩
  · intro h
    simp [HereClient.determine_congestion_level, h]
  · intro hne
    refine ⟨?_, ?_, ?_, ?_⟩
    · intro h
      simp [HereClient.determine_congestion_level, hne, h]
    · rintro ⟨hlo, hhi⟩
      have h1 : ¬ (8/10 : ℚ) ≤ c / f := not_le.mpr hhi
      simp [HereClient.determine_congestion_level, hne, h1, hlo]
    · rintro ⟨hlo, hhi⟩
      have h1 : ¬ (8/10 : ℚ) ≤ c / f := not_le.mpr (by linarith)
      have h2 : ¬ (6/10 : ℚ) ≤ c / f := not_le.mpr hhi
      simp [HereClient.determine_congestion_level, hne, h1, h2, hlo]
    · intro h
      have h1 : ¬ (8/10 : ℚ) ≤ c / f := not_le.mpr (by linarith)
      have h2 : ¬ (6/10 : ℚ) ≤ c / f := not_le.mpr (by linarith)
      have h3 : ¬ (4/10 : ℚ) ≤ c / f := not_le.mpr h
      simp [HereClient.determine_congestion_level, hne, h1, h2, h3]

/-- Witness for C8 at the concrete input (80, 100). -/
theorem determine_congestion_level_spec_w :
    HereClient.determine_congestion_level 80 100 = "LOW" :=
  (determine_congestion_level_spec 80 100 (by norm_num) (by norm_num)).2.2.1

/-- C2 evaluation: a flow request whose upstream fetch raises HTTPError 429
reaches the caller as HTTPException(500, "Internal server error"), exactly as
a 500-status upstream failure does, because the HTTPException(429) raised at
routes/traffic.py line 174 is swallowed by the enclosing
`except Exception: pass` (line 175-176); the two failures are
indistinguishable to the caller. -/
theorem rate_limited_flow_yields_500 :
    flow_rate_limit_block (.httpError 429) = .ok () ∧
    flow_inner_except (.httpError 429)
      = .httpException 500 ("Failed to fetch traffic data: " ++ pyStr (.httpError 429)) ∧
    flow_handle_upstream_error (.httpError 429)
      = .httpError 500 "Internal server error" ∧
    flow_handle_upstream_error (.retryError (.httpError 429))
      = .httpError 500 "Internal server error" ∧
    flow_handle_upstream_error (.httpError 500)
      = .httpError 500 "Internal server error" ∧
    flow_handle_upstream_error (.httpError 429)
      = flow_handle_upstream_error (.httpError 500) :=
  ⟨rfl, rfl, rfl, rfl, rfl, rfl⟩

/-- C3 evaluation: on a cold fetch whose payload has two sub-results (speeds
30 and 50, free-flows 60 and 100), the stored congestion level is "UNKNOWN"
while the classifier applied to the arithmetic means (40 and 80) gives
"HIGH"; the key "results" that the aggregation loop reads is not among the
keys of the parsed record it is read from, so the loop always aggregates an
empty list and the classifier is applied to (0, 0). -/
theorem cold_fetch_congestion_ignores_means :
    ("results" ∈ parsedFlowKeys → False) ∧
    flow_cold_congestion_inputs
      (HereClient.parse_traffic_flow_response twoResultFlowPayload 1 2) = (0, 0, 0) ∧
    (mkTrafficCacheRow twoResultFlowPayload 1 2).congestion_level = "UNKNOWN" ∧
    HereClient.determine_congestion_level ((30 + 50) / 2) ((60 + 100) / 2) = "HIGH" ∧
    (mkTrafficCacheRow twoResultFlowPayload 1 2).congestion_level
      ≠ HereClient.determine_congestion_level ((30 + 50) / 2) ((60 + 100) / 2) := by
  have h1 : (mkTrafficCacheRow twoResultFlowPayload 1 2).congestion_level = "UNKNOWN" := rfl
  have h2 : HereClient.determine_congestion_level ((30 + 50) / 2) ((60 + 100) / 2) = "HIGH" := by
    norm_num [HereClient.determine_congestion_level]
  refine ⟨by decide, rfl, h1, h2, ?_⟩
  rw [h1, h2]
  decide

/-- C4 counterexample: at a concrete successful fetch whose database write
fails, the caller receives HTTP 500 "Internal server error" — the fetched
record is not returned. -/
theorem db_write_failure_drops_record_cex :
    flow_cold_after_fetch twoResultFlowPayload 1 2 false
      = .httpError 500 "Internal server error" ∧
    ¬ ∃ fields, flow_cold_after_fetch twoResultFlowPayload 1 2 false
      = .response fields := by
  have h0 : flow_cold_after_fetch twoResultFlowPayload 1 2 false
      = .httpError 500 "Internal server error" := rfl
  refine ⟨h0, ?_⟩
  rintro ⟨fields, hf⟩
  rw [h0] at hf
  cases hf

/-- C4 amended: a DurableCache write failure after a successful upstream
fetch is not tolerated — for every payload the flow handler turns it into
HTTP 500 "Internal server error" instead of returning the fetched record. -/
theorem db_write_failure_yields_500 (raw : FlowApiData) (lat lng : ℚ) :
    flow_cold_after_fetch raw lat lng false
      = .httpError 500 "Internal server error" := rfl

/-- C9 counterexample: an incidents fetch whose upstream responds with the
client-error status 404 (not a rate limit, not a server error) propagates the
HTTPError instead of degrading to an empty list. -/
theorem incidents_404_propagates_cex :
    (HereClient.get_traffic_incidents (fun _ => .error (.httpError 404))).1
      = .error (.httpError 404) ∧
    ((HereClient.get_traffic_incidents (fun _ => .error (.httpError 404))).1
      = .ok [] → False) := by
  refine ⟨rfl, ?_⟩
  intro h
  cases h

/-- C9 amended: exactly the upstream status 400 degrades the incidents fetch
to an empty list with no exception; any other HTTPError status propagates
unchanged. -/
theorem incidents_only_400_degrades (s : Nat) (hs : s ≠ 400) :
    (HereClient.get_traffic_incidents (fun _ => .error (.httpError 400))).1 = .ok [] ∧
    (HereClient.get_traffic_incidents (fun _ => .error (.httpError s))).1
      = .error (.httpError s) := by
  refine ⟨rfl, ?_⟩
  simp [HereClient.get_traffic_incidents, hs]

/-- Witness for C9 at status 404. -/
theorem incidents_only_400_degrades_w :
    (HereClient.get_traffic_incidents (fun _ => .error (.httpError 400))).1 = .ok [] ∧
    (HereClient.get_traffic_incidents (fun _ => .error (.httpError 404))).1
      = .error (.httpError 404) :=
  incidents_only_400_degrades 404 (by decide)

/-- C6 evaluation: after a first flow request has completed the Persist step
(so an unexpired TrafficCache row exists, and the fast cache, when reachable,
holds the dict with key set `cacheDataKeys`), an identical request issues no
new upstream call (its upstream call count is 0) but does not return the
record: building TrafficFlowResponse from either cached dict fails
validation and the caller receives HTTP 500 "Internal server error". -/
theorem cached_rerequest_fails (row : TrafficCacheRow) (fastUp : Bool)
    (op : Nat → Except PyErr FlowApiData) (lat lng : ℚ) (dbOk : Bool) :
    flow_request (if fastUp then some cacheDataKeys else none) (some row) op lat lng dbOk
      = (.httpError 500 "Internal server error", 0) := by
  cases fastUp <;> rfl

/-- C1: the flow cache dicts omit the required fields end_latitude,
end_longitude and congestion_factor, and the route constructor omits the
required fields route and segments; consequently the durable-cache-hit path
and the cold-fetch Persist/Respond path of GET /traffic/flow, and the
all-fetches-succeed path of POST /traffic/route, all raise during pydantic
response construction and surface HTTP 500 to the caller. -/
theorem response_construction_raises_500 :
    pydanticMissing TrafficFlowResponse.required cacheDataKeys
      = ["end_latitude", "end_longitude", "congestion_factor"] ∧
    pydanticMissing RouteTrafficResponse.required routeCtorKeys
      = ["route", "segments"] ∧
    (∀ (row : TrafficCacheRow) (op : Nat → Except PyErr FlowApiData)
        (lat lng : ℚ) (dbOk : Bool),
      (flow_request none (some row) op lat lng dbOk).1
        = .httpError 500 "Internal server error") ∧
    (∀ (raw : FlowApiData) (lat lng : ℚ),
      flow_cold_after_fetch raw lat lng true
        = .httpError 500 "Internal server error") ∧
    (∀ (k : Nat) (legs : Nat → Nat → RouteLegData) (segRaws : Nat → FlowApiData)
        (wp : Nat → ℚ × ℚ),
      get_route_with_traffic_handler (k + 2) (fun a i => .ok (legs a i))
        (fun i => .ok (segRaws i)) wp
        = .httpError 500 ("Failed to get route data: " ++ pyStr .validationError)) := by
  refine ⟨rfl, rfl, fun row op lat lng dbOk => rfl, fun raw lat lng => rfl, ?_⟩
  intro k legs segRaws wp
  rcases routeLegsLoop_all_ok (legs 1) (k + 1) 0 ⟨0, 0, 0, []⟩ with ⟨acc2, hacc⟩
  have hbody : routeAttemptBody (fun i => .ok (legs 1 i)) (k + 2)
      = .ok { total_distance_km := (acc2.total_length_m : ℚ) / 1000
              total_time_minutes := Int.fdiv acc2.total_duration_s 60
              traffic_delay_minutes := Int.fdiv acc2.total_traffic_delay_s 60
              polyline := ""
              sections := acc2.all_polylines } := by
    have hsub : k + 2 - 1 = k + 1 := rfl
    simp [routeAttemptBody, hsub, hacc, Except.map]
  have hclient : (HereClient.get_route_with_traffic
      (fun a i => .ok (legs a i)) (k + 2)).1
      = .ok { total_distance_km := (acc2.total_length_m : ℚ) / 1000
              total_time_minutes := Int.fdiv acc2.total_duration_s 60
              traffic_delay_minutes := Int.fdiv acc2.total_traffic_delay_s 60
              polyline := ""
              sections := acc2.all_polylines } := by
    show (tenacityRun (fun a => routeAttemptBody (fun i => .ok (legs a i)) (k + 2)) 1 2).1 = _
    rw [tenacityRun_step, hbody]
  rcases route_segments_loop_all_ok segRaws wp (k + 1) 0 [] 0 with ⟨r, hr⟩
  unfold get_route_with_traffic_handler
  rw [if_neg (by omega)]
  rw [hclient]
  have hsub : k + 2 - 1 = k + 1 := rfl
  rw [hsub, hr]
  rfl

/-- C5 counterexample: the flow fetch has no retry wrapper — against an
upstream that fails on attempts 1 and 2 and would succeed on attempt 3, the
client returns the first failure after exactly 1 upstream invocation, not a
success after 3; and the route fetch, which does retry, surfaces a RetryError
wrapper after exhaustion rather than the unwrapped root-cause failure. -/
theorem retry_budget_cex :
    HereClient.get_traffic_flow failTwiceFlowOp 1 2
      = (.error (.httpError 500), 1) ∧
    (HereClient.get_traffic_flow failTwiceFlowOp 1 2).2 ≠ 3 ∧
    tenacityRun alwaysFail503Op 1 2
      = (.error (.retryError (.httpError 503)), 3) ∧
    (Except.error (PyErr.retryError (.httpError 503)) : Except PyErr Nat)
      ≠ .error (.httpError 503) := by
  refine ⟨rfl, by decide, rfl, ?_⟩
  intro h
  exact PyErr.noConfusion (Except.error.inj h)

/-- C5 amended: only the route fetch carries the 3-attempt retry policy — a
route body failing on attempts 1 and 2 and succeeding on attempt 3 yields
that success with exactly 3 invocations, and one failing on all attempts
yields a RetryError wrapping the last failure after exactly 3 invocations.
The flow fetch and the incidents fetch have no retry wrapper: each issues
exactly one upstream invocation per call, and the flow fetch surfaces its
first failure directly (the incidents fetch additionally degrades a 400
response, which is outside this statement). -/
theorem retry_policy_per_operation :
    (∀ (fetch : Nat → Nat → Except PyErr RouteLegData) (n : Nat)
        (e1 e2 : PyErr) (v : RouteData),
      routeAttemptBody (fetch 1) n = .error e1 →
      routeAttemptBody (fetch 2) n = .error e2 →
      routeAttemptBody (fetch 3) n = .ok v →
      HereClient.get_route_with_traffic fetch n = (.ok v, 3)) ∧
    (∀ (fetch : Nat → Nat → Except PyErr RouteLegData) (n : Nat) (e : PyErr),
      (∀ a, routeAttemptBody (fetch a) n = .error e) →
      HereClient.get_route_with_traffic fetch n = (.error (.retryError e), 3)) ∧
    (∀ (op : Nat → Except PyErr FlowApiData) (lat lng : ℚ),
      (HereClient.get_traffic_flow op lat lng).2 = 1 ∧
      (∀ e, op 1 = .error e → (HereClient.get_traffic_flow op lat lng).1 = .error e)) ∧
    (∀ (op : Nat → Except PyErr IncidentsData),
      (HereClient.get_traffic_incidents op).2 = 1) := by
  refine ⟨?_, ?_, ?_, ?_⟩
  · intro fetch n e1 e2 v h1 h2 h3
    exact tenacityRun_succeeds_3rd _ e1 e2 v h1 h2 h3
  · intro fetch n e h
    exact tenacityRun_exhausts _ e h
  · intro op lat lng
    constructor
    · cases h : op 1 <;> simp [HereClient.get_traffic_flow, h]
    · intro e he
      simp [HereClient.get_traffic_flow, he]
  · intro op
    cases h : op 1 with
    | ok d => simp [HereClient.get_traffic_incidents, h]
    | error e =>
      cases e <;> simp [HereClient.get_traffic_incidents, h]

/-- Witness for C5 at a route oracle whose second leg always fails and at the
fail-twice flow upstream. -/
theorem retry_policy_per_operation_w :
    HereClient.get_route_with_traffic leg1FailsFetch 3
      = (.error (.retryError (.httpError 500)), 3) ∧
    (HereClient.get_traffic_flow failTwiceFlowOp 1 2).2 = 1 :=
  ⟨retry_policy_per_operation.2.1 leg1FailsFetch 3 (.httpError 500) (fun _ => rfl),
   (retry_policy_per_operation.2.2.1 failTwiceFlowOp 1 2).1⟩

/-- C7: for a route over n waypoints (n at least 2), if some single leg
fails on every attempt, then the client surfaces a retry-exhaustion failure
and the handler answers HTTP 500 with only an error detail — no partial
distance, time, delay or geometry is returned. -/
theorem route_leg_failure_atomic (n i : Nat)
    (fetch : Nat → Nat → Except PyErr RouteLegData)
    (segUp : Nat → Except PyErr FlowApiData) (wp : Nat → ℚ × ℚ)
    (hn : 2 ≤ n) (hi : i < n - 1)
    (hfail : ∀ a, ∃ e, fetch a i = .error e) :
    (∃ e, (HereClient.get_route_with_traffic fetch n).1 = .error (.retryError e)) ∧
    (∃ d, get_route_with_traffic_handler n fetch segUp wp = .httpError 500 d) := by
  have hbody : ∀ a, ∃ e, routeAttemptBody (fetch a) n = .error e := by
    intro a
    rcases routeLegsLoop_leg_error (fetch a) (n - 1) i 0 ⟨0, 0, 0, []⟩ hi
      (by simpa using hfail a) with ⟨e2, he2⟩
    exact ⟨e2, by simp [routeAttemptBody, he2, Except.map]⟩
  rcases tenacityRun_all_fail _ hbody 2 1 with ⟨e, he⟩
  refine ⟨⟨e, he⟩, ⟨"Failed to get route data: " ++ pyStr (.retryError e), ?_⟩⟩
  unfold get_route_with_traffic_handler
  rw [if_neg (by omega)]
  rw [show (HereClient.get_route_with_traffic fetch n).1 = .error (.retryError e) from he]

/-- Witness for C7: a 3-waypoint route whose second leg always fails with a
500 response. -/
theorem route_leg_failure_atomic_w :
    (∃ e, (HereClient.get_route_with_traffic leg1FailsFetch 3).1
      = .error (.retryError e)) ∧
    (∃ d, get_route_with_traffic_handler 3 leg1FailsFetch
      (fun _ => .ok twoResultFlowPayload) (fun _ => (1, 2)) = .httpError 500 d) :=
  route_leg_failure_atomic 3 1 leg1FailsFetch
    (fun _ => .ok twoResultFlowPayload) (fun _ => (1, 2))
    (by norm_num) (by norm_num) (fun _ => ⟨.httpError 500, rfl⟩)

/-- C10 counterexample: a parameter value containing the separator collides
with a genuinely different parameter map — the single parameter
lat = "1:lng:2" and the pair lat = "1", lng = "2" produce the same key. -/
theorem cache_key_collision_cex :
    CacheManager.generate_cache_key "traffic_flow" [("lat", "1:lng:2")]
      = CacheManager.generate_cache_key "traffic_flow" [("lat", "1"), ("lng", "2")] ∧
    ([("lat", "1:lng:2")] : List (String × String)) ≠ [("lat", "1"), ("lng", "2")] := by
  refine ⟨by decide, by decide⟩

/-- Witness for C10 on two supply orders of the flow parameters. -/
theorem generate_cache_key_inj_w :
    ("traffic_flow" : String) = "traffic_flow" ∧
    List.Perm [("lat", "1.0"), ("lng", "2.0"), ("radius", "1000")]
      [("radius", "1000"), ("lat", "1.0"), ("lng", "2.0")] :=
  CacheManager.generate_cache_key_inj "traffic_flow" "traffic_flow"
    [("lat", "1.0"), ("lng", "2.0"), ("radius", "1000")]
    [("radius", "1000"), ("lat", "1.0"), ("lng", "2.0")]
    (by decide) (by decide) (by decide) (by decide) (by decide)
